import Mathlib

/-!
Shallow embedding of the refresh/cache/derive pipeline of a tray-icon usage
monitor (source: src/src-tauri/src/lib.rs).  Pure Rust functions become Lean
functions; the fetch/refresh effects are modelled by passing the environment
(the outcome of each probe strategy, the current instant, the local-time
formatter) as explicit parameters.  `f64` values are modelled as rationals,
with Rust's fixed-precision `{:.2}` / `{:.1}` formatting modelled as
round-half-to-even decimal rendering; `u64` fields are modelled as `Nat`
(with the `2 ^ 64` bound enforced where numbers are deserialized);
`Instant` is modelled as `Nat`.
-/

namespace CCUsage

/-- Token counters of one usage block (struct `TokenCounts`; the four fields
are `u64` in the source, hence non-negative integers). -/
structure TokenCounts where
  input_tokens : Nat
  output_tokens : Nat
  cache_creation_input_tokens : Nat
  cache_read_input_tokens : Nat
  deriving DecidableEq

/-- One usage block (struct `BlockData`). `cost_usd` is `f64` in the source,
modelled as a rational. -/
structure BlockData where
  id : String
  start_time : String
  end_time : String
  is_active : Bool
  token_counts : TokenCounts
  cost_usd : ℚ
  models : List String
  deriving DecidableEq

/-- The envelope of the external tool's JSON output (struct `BlocksResponse`). -/
structure BlocksResponse where
  blocks : List BlockData
  deriving DecidableEq

/-- The session cache record (struct `SessionData`); `last_updated` is an
`Option Instant`, modelled with `Nat` instants. -/
structure SessionData where
  active_block : Option BlockData
  last_updated : Option Nat
  ccusage_available : Bool
  deriving DecidableEq

/-- Initial value of `SESSION_CACHE` (all absent / false). -/
def initial_session_cache : SessionData :=
  ⟨none, none, false⟩

/-- `leads_with pat l` holds when `pat` is an initial run of `l`
(character-list version of substring search, used to model
`str::contains`). -/
def leads_with : List Char → List Char → Bool
  | [], _ => true
  | _ :: _, [] => false
  | a :: as, b :: bs => (a == b) && leads_with as bs

/-- `tail_contains pat l`: some tail of `l` starts with `pat`. -/
def tail_contains : List Char → List Char → Bool
  | pat, [] => leads_with pat []
  | pat, b :: rest => leads_with pat (b :: rest) || tail_contains pat rest

/-- Model of Rust `str::contains` on strings: `pat` occurs contiguously
somewhere in `s`. -/
def str_contains (s pat : String) : Bool :=
  tail_contains pat.data s.data

/-- `format_model_name` (lib.rs lines 64-82): exact lookup of four known
identifiers, else substring fallback on "opus" / "sonnet" / "haiku" in that
order, else the raw name. -/
def format_model_name (model_name : String) : String :=
  if model_name = "claude-opus-4-20250514" then "Opus 4"
  else if model_name = "claude-sonnet-4-20250514" then "Sonnet 4"
  else if model_name = "claude-3-5-sonnet-20241022" then "Sonnet 3.5"
  else if model_name = "claude-3-haiku-20240307" then "Haiku"
  else if str_contains model_name "opus" then "Opus"
  else if str_contains model_name "sonnet" then "Sonnet"
  else if str_contains model_name "haiku" then "Haiku"
  else model_name

/-- The spec's description of model-name normalization: a fixed lookup
table, then family-keyword substring fallback in priority order, else the
raw identifier (written from the spec's words, for refinement against
`format_model_name`). -/
def spec_model_table : List (String × String) :=
  [("claude-opus-4-20250514", "Opus 4"),
   ("claude-sonnet-4-20250514", "Sonnet 4"),
   ("claude-3-5-sonnet-20241022", "Sonnet 3.5"),
   ("claude-3-haiku-20240307", "Haiku")]

/-- Spec-side normalization function (see `spec_model_table`). -/
def spec_format_model_name (m : String) : String :=
  match List.lookup m spec_model_table with
  | some label => label
  | none =>
    if str_contains m "opus" then "Opus"
    else if str_contains m "sonnet" then "Sonnet"
    else if str_contains m "haiku" then "Haiku"
    else m

/-- Round `scale * q` to the nearest integer, ties to even: the rounding
Rust fixed-precision float formatting applies to the scaled value (written
over `q.num` / `q.den` with integer division so that it evaluates by kernel
reduction; `rhe_scaled_dist` below proves it is nearest-integer rounding). -/
def rhe_scaled (scale : ℤ) (q : ℚ) : ℤ :=
  let n : ℤ := q.num * scale
  let d : ℤ := (q.den : ℤ)
  let f : ℤ := n / d
  let r : ℤ := n % d
  if 2 * r < d then f
  else if d < 2 * r then f + 1
  else if f % 2 = 0 then f else f + 1

/-- Two-digit zero padding for the fractional part of a cost. -/
def pad2 (n : Nat) : String :=
  if n < 10 then "0" ++ toString n else toString n

/-- Model of Rust `format!("{:.2}", q)` on a (rational-modelled) `f64`. -/
def fmt_f64_2 (q : ℚ) : String :=
  let n : ℤ := rhe_scaled 100 q
  (if n < 0 then "-" else "") ++ toString (n.natAbs / 100) ++ "." ++ pad2 (n.natAbs % 100)

/-- Model of Rust `format!("{:.1}", q)` on a (rational-modelled) `f64`. -/
def fmt_f64_1 (q : ℚ) : String :=
  let n : ℤ := rhe_scaled 10 q
  (if n < 0 then "-" else "") ++ toString (n.natAbs / 10) ++ "." ++ toString (n.natAbs % 10)

/-- One entry of the presentation model: a labelled item (with its string
id and enabled flag) or a separator. -/
inductive MenuEntry
  | item (id label : String) (enabled : Bool)
  | separator
  deriving DecidableEq

/-- `build_menu` (lib.rs lines 260-376) as a pure function of a cache
snapshot.  `fmt_local_time` stands for chrono's RFC3339-parse plus
local-timezone `%I:%M %p` rendering (`none` = unparseable), which depends on
the ambient timezone and is passed in as the environment. -/
def build_menu (fmt_local_time : String → Option String) (cache : SessionData) :
    List MenuEntry :=
  let branch : List MenuEntry :=
    match cache.active_block with
    | some block =>
      let input_k : ℚ := mkRat (block.token_counts.input_tokens : ℤ) 1000
      let output_k : ℚ := mkRat (block.token_counts.output_tokens : ℤ) 1000
      let cost_str : String := "Cost: $" ++ fmt_f64_2 block.cost_usd
      let tokens_str : String :=
        "Tokens: In " ++ fmt_f64_1 input_k ++ "K / Out " ++ fmt_f64_1 output_k ++ "K"
      let start_time : String := (fmt_local_time block.start_time).getD "Unknown"
      let end_time : String := (fmt_local_time block.end_time).getD "Unknown"
      [MenuEntry.item "session_cost" cost_str true,
       MenuEntry.item "session_tokens" tokens_str true,
       MenuEntry.item "session_start" ("Started: " ++ start_time) true,
       MenuEntry.item "session_end" ("Expires: " ++ end_time) true] ++
      (if !block.models.isEmpty then
        [MenuEntry.separator, MenuEntry.item "models_header" "Models used" false] ++
          block.models.map (fun m => MenuEntry.item ("model_" ++ m) (format_model_name m) true)
       else []) ++
      [MenuEntry.separator]
    | none =>
      if cache.last_updated.isSome then
        [MenuEntry.item "no_session" "No active session" true] ++
        (if !cache.ccusage_available then
          [MenuEntry.item "error_msg" "ccusage may not be installed" false,
           MenuEntry.item "install_msg" "Install: npm install -g ccusage" true]
         else []) ++
        [MenuEntry.separator]
      else
        [MenuEntry.item "loading" "Loading..." false, MenuEntry.separator]
  [MenuEntry.item "ccusage_header" "CCUsage" true, MenuEntry.separator,
   MenuEntry.item "session_title" "Current session" false] ++
  branch ++
  [MenuEntry.item "refresh" "Refresh" true,
   MenuEntry.item "debug" "Debug Info" true, MenuEntry.separator,
   MenuEntry.item "quit" "Quit" true]

/-- The menu produced by the Loading branch of `build_menu`. -/
def loading_menu : List MenuEntry :=
  [MenuEntry.item "ccusage_header" "CCUsage" true, MenuEntry.separator,
   MenuEntry.item "session_title" "Current session" false,
   MenuEntry.item "loading" "Loading..." false, MenuEntry.separator,
   MenuEntry.item "refresh" "Refresh" true,
   MenuEntry.item "debug" "Debug Info" true, MenuEntry.separator,
   MenuEntry.item "quit" "Quit" true]

/-- A JSON value, as far as the response shape is concerned (numbers carry
the exact rational value the text denotes). -/
inductive Json
  | num (q : ℚ)
  | str (s : String)
  | boolean (b : Bool)
  | arr (elems : List Json)
  | obj (fields : List (String × Json))
  | null

/-- Deserialize a `u64` field (serde semantics for the `u64` fields declared
in `TokenCounts`): succeeds exactly on integral JSON numbers in
`[0, 2 ^ 64)`. -/
def parse_u64 : Json → Option Nat
  | Json.num q =>
    if q.den = 1 ∧ 0 ≤ q.num ∧ q.num < 2 ^ 64 then some q.num.toNat else none
  | _ => none

/-- Deserialize a string field. -/
def parse_string : Json → Option String
  | Json.str s => some s
  | _ => none

/-- Deserialize a boolean field. -/
def parse_boolean : Json → Option Bool
  | Json.boolean b => some b
  | _ => none

/-- Deserialize an `f64` field (any JSON number). -/
def parse_f64 : Json → Option ℚ
  | Json.num q => some q
  | _ => none

/-- Deserialize a `Vec<String>` field. -/
def parse_string_list : Json → Option (List String)
  | Json.arr elems => elems.mapM parse_string
  | _ => none

/-- Deserialize the nested `tokenCounts` object (serde derive for
`TokenCounts` with its renamed fields): every field must be present and a
valid `u64`. -/
def parse_token_counts : Json → Option TokenCounts
  | Json.obj fields => do
    let i ← List.lookup "inputTokens" fields >>= parse_u64
    let o ← List.lookup "outputTokens" fields >>= parse_u64
    let cc ← List.lookup "cacheCreationInputTokens" fields >>= parse_u64
    let cr ← List.lookup "cacheReadInputTokens" fields >>= parse_u64
    some ⟨i, o, cc, cr⟩
  | _ => none

/-- Deserialize one block record (serde derive for `BlockData` with its
renamed fields). -/
def parse_block_data : Json → Option BlockData
  | Json.obj fields => do
    let id ← List.lookup "id" fields >>= parse_string
    let st ← List.lookup "startTime" fields >>= parse_string
    let et ← List.lookup "endTime" fields >>= parse_string
    let ia ← List.lookup "isActive" fields >>= parse_boolean
    let tc ← List.lookup "tokenCounts" fields >>= parse_token_counts
    let cu ← List.lookup "costUSD" fields >>= parse_f64
    let ms ← List.lookup "models" fields >>= parse_string_list
    some ⟨id, st, et, ia, tc, cu, ms⟩
  | _ => none

/-- Deserialize a sequence of block records in order; the first bad record
fails the whole sequence (serde visits sequence elements left to right). -/
def parse_block_seq : List Json → Option (List BlockData)
  | [] => some []
  | j :: rest => do
    let b ← parse_block_data j
    let bs ← parse_block_seq rest
    some (b :: bs)

/-- Deserialize the `blocks` array; one bad record fails the whole array. -/
def parse_block_list : Json → Option (List BlockData)
  | Json.arr elems => parse_block_seq elems
  | _ => none

/-- Deserialize the whole response (serde derive for `BlocksResponse`). -/
def parse_blocks_response : Json → Option BlocksResponse
  | Json.obj fields => do
    let bs ← List.lookup "blocks" fields >>= parse_block_list
    some ⟨bs⟩
  | _ => none

/-- Outcome of executing one probe strategy: spawn error, non-success exit
status, or success exit with stdout (already lexed: `none` when the text is
not JSON at all, `some j` for JSON value `j`). -/
inductive StratOutcome
  | spawnFailure
  | exitFailure
  | exitSuccess (stdout : Option Json)

/-- The fixed ordered strategy list `shell_commands`
(lib.rs lines 86-99). -/
def shell_commands : List (String × List String) :=
  [("sh", ["-c", "PATH=/usr/local/bin:/opt/homebrew/bin:/usr/bin:/bin:$HOME/.npm/bin:$HOME/.nvm/versions/node/*/bin:$HOME/.volta/bin:$PATH npx ccusage@latest blocks --json --active"]),
   ("sh", ["-c", "PATH=/usr/local/bin:/opt/homebrew/bin:/usr/bin:/bin:$HOME/.npm/bin:$HOME/.nvm/versions/node/*/bin:$HOME/.volta/bin:$PATH ccusage blocks --json --active"]),
   ("sh", ["-c", "npx ccusage@latest blocks --json --active"]),
   ("sh", ["-c", "ccusage blocks --json --active"]),
   ("npx", ["ccusage@latest", "blocks", "--json", "--active"]),
   ("ccusage", ["blocks", "--json", "--active"])]

/-- The strategy loop of `fetch_session_data` (lib.rs lines 101-138): on
success-exit, parse stdout; a parse success returns the first active block
and `true`; spawn failure, exit failure and parse failure all advance; the
empty list yields `(none, false)`. -/
def fetch_loop (run : String × List String → StratOutcome) :
    List (String × List String) → Option BlockData × Bool
  | [] => (none, false)
  | c :: rest =>
    match run c with
    | StratOutcome.exitSuccess stdout =>
      match stdout.bind parse_blocks_response with
      | some response => (response.blocks.find? (fun block => block.is_active), true)
      | none => fetch_loop run rest
    | StratOutcome.exitFailure => fetch_loop run rest
    | StratOutcome.spawnFailure => fetch_loop run rest

/-- `fetch_session_data`, with the execution environment `run` giving each
strategy's outcome. -/
def fetch_session_data (run : String × List String → StratOutcome) :
    Option BlockData × Bool :=
  fetch_loop run shell_commands

/-- Whether a strategy outcome counts as a success, and with which parsed
response (exit success and parseable stdout). -/
def strat_succeeds : StratOutcome → Option BlocksResponse
  | StratOutcome.exitSuccess (some j) => parse_blocks_response j
  | _ => none

/-- The refresh body `refresh_session_data` (lib.rs lines 222-258) as a
cache transformer: given the fetch result and the current instant, it
returns the new cache record and the tray title it requests
(`$` plus two-decimal cost when an active block exists, else empty). -/
def refresh_session_data (fetched : Option BlockData × Bool) (now : Nat)
    (cache : SessionData) : SessionData × String :=
  let title : String :=
    match fetched.1 with
    | some block => "$" ++ fmt_f64_2 block.cost_usd
    | none => ""
  let _ := cache
  (⟨fetched.1, some now, fetched.2⟩, title)

/-- The two refresh triggers: the 120-second periodic timer tick, and the
explicit "Refresh" menu action. -/
inductive Trigger
  | timerFire
  | userRefresh
  deriving DecidableEq

/-- The period of the timer task (lib.rs line 393). -/
def refresh_interval_secs : Nat := 120

/-- Whether a trigger invokes `refresh_session_data` (lib.rs lines
396-404 for the timer: only when not refreshing and `last_updated` present;
lines 450-462 for the "refresh" menu event: unconditionally). -/
def trigger_invokes_refresh (is_refreshing : Bool) (cache : SessionData) :
    Trigger → Bool
  | Trigger.timerFire => !is_refreshing && cache.last_updated.isSome
  | Trigger.userRefresh => true

/-- Dispatch of one trigger: run the refresh body when the trigger invokes
it, else leave the cache untouched; the boolean records whether a refresh
cycle (external invocation plus cache write) ran. -/
def handle_trigger (t : Trigger) (is_refreshing : Bool) (cache : SessionData)
    (fetched : Option BlockData × Bool) (now : Nat) : SessionData × Bool :=
  if trigger_invokes_refresh is_refreshing cache t then
    ((refresh_session_data fetched now cache).1, true)
  else (cache, false)

/-- A concrete active block used in counterexamples and witnesses. -/
def sample_block : BlockData :=
  ⟨"block-1", "2025-01-01T00:00:00Z", "2025-01-01T05:00:00Z", true,
   ⟨1000, 2000, 0, 0⟩, 5, ["claude-sonnet-4-20250514"]⟩

/-- A concrete inactive block used in counterexamples and witnesses. -/
def sample_inactive : BlockData :=
  ⟨"block-0", "2025-01-01T00:00:00Z", "2025-01-01T05:00:00Z", false,
   ⟨10, 20, 0, 0⟩, 3, []⟩

/-- JSON form of `sample_inactive`'s token counters. -/
def sample_json_token_counts : Json :=
  Json.obj [("inputTokens", Json.num 10), ("outputTokens", Json.num 20),
    ("cacheCreationInputTokens", Json.num 0), ("cacheReadInputTokens", Json.num 0)]

/-- JSON form of `sample_inactive` (a well-formed inactive block record). -/
def sample_json_inactive_block : Json :=
  Json.obj [("id", Json.str "block-0"), ("startTime", Json.str "2025-01-01T00:00:00Z"),
    ("endTime", Json.str "2025-01-01T05:00:00Z"), ("isActive", Json.boolean false),
    ("tokenCounts", sample_json_token_counts), ("costUSD", Json.num 3),
    ("models", Json.arr [])]

/-- A well-formed response whose only block is inactive. -/
def sample_json_response : Json :=
  Json.obj [("blocks", Json.arr [sample_json_inactive_block])]

/-- A block record whose `inputTokens` is a negative number (invalid as
`u64`). -/
def bad_block_json : Json :=
  Json.obj [("id", Json.str "b"), ("startTime", Json.str "s"),
    ("endTime", Json.str "e"), ("isActive", Json.boolean true),
    ("tokenCounts", Json.obj [("inputTokens", Json.num (mkRat (-5) 1)),
      ("outputTokens", Json.num 0), ("cacheCreationInputTokens", Json.num 0),
      ("cacheReadInputTokens", Json.num 0)]),
    ("costUSD", Json.num 1), ("models", Json.arr [])]

/-- A response whose only block record is `bad_block_json`. -/
def bad_response_json : Json :=
  Json.obj [("blocks", Json.arr [bad_block_json])]

/-- If every strategy in the list fails (spawn failure, exit failure, or
unparseable stdout), the strategy loop returns `(none, false)`. -/
theorem fetch_loop_all_fail (run : String × List String → StratOutcome)
    (l : List (String × List String)) (h : ∀ c ∈ l, strat_succeeds (run c) = none) :
    fetch_loop run l = (none, false) := by
  induction l with
  | nil => rfl
  | cons c rest ih =>
    have hc := h c (List.mem_cons_self c rest)
    have hrest : ∀ x ∈ rest, strat_succeeds (run x) = none :=
      fun x hx => h x (List.mem_cons_of_mem c hx)
    cases hrc : run c with
    | spawnFailure => simpa [fetch_loop, hrc] using ih hrest
    | exitFailure => simpa [fetch_loop, hrc] using ih hrest
    | exitSuccess stdout =>
      cases stdout with
      | none => simpa [fetch_loop, hrc] using ih hrest
      | some j =>
        have hj : parse_blocks_response j = none := by
          simpa [strat_succeeds, hrc] using hc
        simpa [fetch_loop, hrc, hj] using ih hrest

/-- Claim C1 counterexample: with the refresh guard set (`is_refreshing =
true`) and a completed prior refresh in the cache, an explicit user refresh
request is not a no-op: it invokes a refresh cycle (second flag `true`) and
overwrites the session cache. -/
theorem C1_counterexample :
    handle_trigger Trigger.userRefresh true ⟨some sample_block, some 0, true⟩
      (none, false) 1 = (⟨none, some 1, false⟩, true) := by
  decide

/-- Claim C1 (amended): only the periodic timer trigger is gated by the
refresh guard — a timer fire while a refresh cycle is in progress leaves the
cache untouched and invokes nothing; an explicit user refresh request does
not consult the guard: it always invokes a refresh cycle, which writes the
cache (`last_updated` becomes the new instant). -/
theorem C1_amended_thm :
    (∀ (c : SessionData) (fetched : Option BlockData × Bool) (now : Nat),
      handle_trigger Trigger.timerFire true c fetched now = (c, false))
    ∧ (∀ (r : Bool) (c : SessionData),
      trigger_invokes_refresh r c Trigger.userRefresh = true)
    ∧ (∀ (r : Bool) (c : SessionData) (fetched : Option BlockData × Bool) (now : Nat),
      (handle_trigger Trigger.userRefresh r c fetched now).1.last_updated = some now) := by
  refine ⟨?_, ?_, ?_⟩
  · intro c fetched now
    simp [handle_trigger, trigger_invokes_refresh]
  · intro r c
    rfl
  · intro r c fetched now
    rfl

/-- Claim C2 counterexample: a cache snapshot with `last_updated` absent but
an active block present is rendered as the Active branch, not the Loading
branch — so "regardless of the other snapshot fields" fails. -/
theorem C2_counterexample :
    build_menu (fun _ => none) ⟨some sample_block, none, false⟩ ≠ loading_menu := by
  decide

/-- Claim C2 (amended): for every cache snapshot whose `last_updated` field
is absent and whose active block is also absent (as in every state the
coordinator can actually produce before the first refresh), `build_menu`
produces exactly the Loading branch, regardless of the remaining field and
of the time formatter; a snapshot with an active block present takes the
Active branch even when `last_updated` is absent. -/
theorem C2_amended_thm :
    ∀ (fmt_local_time : String → Option String) (avail : Bool),
      build_menu fmt_local_time ⟨none, none, avail⟩ = loading_menu := by
  intro fmt_local_time avail
  rfl

/-- Claim C3 counterexample: starting from a cache holding `sample_block`,
a refresh cycle in which every strategy fails does not retain the cached
interval — it overwrites it with `none`. -/
theorem C3_counterexample :
    (refresh_session_data (fetch_session_data (fun _ => StratOutcome.spawnFailure)) 1
        ⟨some sample_block, some 0, true⟩).1.active_block ≠ some sample_block := by
  decide

/-- Claim C3 (amended): if a refresh cycle fails (every probe strategy is
exhausted without success), the cache is overwritten with no interval and
tool-available `false` (the previously cached interval is not retained),
while `last_updated` is still set to the current instant. -/
theorem C3_amended_thm :
    ∀ (run : String × List String → StratOutcome) (now : Nat) (cache : SessionData),
      (∀ c ∈ shell_commands, strat_succeeds (run c) = none) →
      (refresh_session_data (fetch_session_data run) now cache).1
        = ⟨none, some now, false⟩ := by
  intro run now cache h
  have hf : fetch_session_data run = (none, false) :=
    fetch_loop_all_fail run shell_commands h
  rw [hf]
  rfl

/-- Witness for the amended C3 theorem at a concrete all-failing
environment. -/
theorem C3_witness :
    (refresh_session_data (fetch_session_data (fun _ => StratOutcome.spawnFailure)) 1
        ⟨none, none, false⟩).1 = ⟨none, some 1, false⟩ :=
  C3_amended_thm (fun _ => StratOutcome.spawnFailure) 1 ⟨none, none, false⟩
    (fun _ _ => rfl)

/-- Claim C6: the periodic timer period is 120 seconds; a timer fire invokes
a refresh cycle exactly when the guard is unset and `last_updated` is
present; while the guard is set, or before any refresh has completed
(`last_updated` absent), a timer fire changes nothing and runs nothing — in
particular the very first refresh is never timer-driven. -/
theorem C6_thm :
    refresh_interval_secs = 120
    ∧ (∀ (r : Bool) (c : SessionData),
        trigger_invokes_refresh r c Trigger.timerFire = (!r && c.last_updated.isSome))
    ∧ (∀ (c : SessionData) (fetched : Option BlockData × Bool) (now : Nat),
        handle_trigger Trigger.timerFire true c fetched now = (c, false))
    ∧ (∀ (r avail : Bool) (b : Option BlockData)
        (fetched : Option BlockData × Bool) (now : Nat),
        handle_trigger Trigger.timerFire r ⟨b, none, avail⟩ fetched now
          = (⟨b, none, avail⟩, false)) := by
  refine ⟨rfl, fun r c => rfl, ?_, ?_⟩
  · intro c fetched now
    simp [handle_trigger, trigger_invokes_refresh]
  · intro r avail b fetched now
    cases r <;> simp [handle_trigger, trigger_invokes_refresh]

/-- `List.find?` returns the first element satisfying the predicate: with
everything before `b` inactive and `b` active, `b` is selected whatever
follows it. -/
theorem find_first_active (pre : List BlockData) (b : BlockData) (post : List BlockData)
    (hpre : ∀ x ∈ pre, x.is_active = false) (hb : b.is_active = true) :
    List.find? (fun block => block.is_active) (pre ++ b :: post) = some b := by
  induction pre with
  | nil => simp [List.find?, hb]
  | cons a rest ih =>
    have ha : a.is_active = false := hpre a (by simp)
    simp only [List.cons_append, List.find?, ha]
    exact ih (fun x hx => hpre x (by simp [hx]))

/-- `List.find?` over an all-inactive list returns nothing. -/
theorem find_no_active (l : List BlockData) (h : ∀ x ∈ l, x.is_active = false) :
    List.find? (fun block => block.is_active) l = none := by
  rw [List.find?_eq_none]
  intro x hx
  simp [h x hx]

/-- Claim C4: the prober's strategy iteration. Spawn failure, exit failure,
success-exit with non-JSON stdout, and success-exit with JSON stdout that
does not deserialize to the response shape all advance to the next
strategy; a strategy returns exactly when its process exits successfully
AND its stdout deserializes, yielding the first active block and
tool-available `true`; exhausting the fixed six-strategy list yields the
overall-failure value `(none, false)` rather than an error. -/
theorem C4_thm :
    shell_commands.length = 6
    ∧ (∀ (run : String × List String → StratOutcome) (c : String × List String)
        (rest : List (String × List String)),
      run c = StratOutcome.spawnFailure →
      fetch_loop run (c :: rest) = fetch_loop run rest)
    ∧ (∀ (run : String × List String → StratOutcome) (c : String × List String)
        (rest : List (String × List String)),
      run c = StratOutcome.exitFailure →
      fetch_loop run (c :: rest) = fetch_loop run rest)
    ∧ (∀ (run : String × List String → StratOutcome) (c : String × List String)
        (rest : List (String × List String)),
      run c = StratOutcome.exitSuccess none →
      fetch_loop run (c :: rest) = fetch_loop run rest)
    ∧ (∀ (run : String × List String → StratOutcome) (c : String × List String)
        (rest : List (String × List String)) (j : Json),
      run c = StratOutcome.exitSuccess (some j) → parse_blocks_response j = none →
      fetch_loop run (c :: rest) = fetch_loop run rest)
    ∧ (∀ (run : String × List String → StratOutcome) (c : String × List String)
        (rest : List (String × List String)) (j : Json) (response : BlocksResponse),
      run c = StratOutcome.exitSuccess (some j) →
      parse_blocks_response j = some response →
      fetch_loop run (c :: rest)
        = (response.blocks.find? (fun block => block.is_active), true))
    ∧ (∀ run : String × List String → StratOutcome,
      (∀ c ∈ shell_commands, strat_succeeds (run c) = none) →
      fetch_session_data run = (none, false)) := by
  refine ⟨rfl, ?_, ?_, ?_, ?_, ?_, ?_⟩
  · intro run c rest h
    simp [fetch_loop, h]
  · intro run c rest h
    simp [fetch_loop, h]
  · intro run c rest h
    simp [fetch_loop, h]
  · intro run c rest j h1 h2
    simp [fetch_loop, h1, h2]
  · intro run c rest j response h1 h2
    simp [fetch_loop, h1, h2]
  · intro run h
    exact fetch_loop_all_fail run shell_commands h

/-- Witness for C4 at concrete environments: one failing strategy is
skipped, and an all-failing environment yields the overall-failure value. -/
theorem C4_witness :
    fetch_loop (fun _ => StratOutcome.spawnFailure)
        (("ccusage", ["blocks", "--json", "--active"]) :: [])
      = fetch_loop (fun _ => StratOutcome.spawnFailure) []
    ∧ fetch_session_data (fun _ => StratOutcome.exitFailure) = (none, false) :=
  ⟨C4_thm.2.1 _ _ _ rfl, C4_thm.2.2.2.2.2.2 _ (fun _ _ => rfl)⟩

/-- Claim C5: the selected interval is the first record in sequence order
whose active flag is set — first of several actives (explicit tie-break),
the unique active when exactly one exists; and a parsed response with no
active record makes the prober return no interval with tool-available still
`true`. -/
theorem C5_thm :
    (∀ (pre : List BlockData) (b : BlockData) (post : List BlockData),
      (∀ x ∈ pre, x.is_active = false) → b.is_active = true →
      List.find? (fun block => block.is_active) (pre ++ b :: post) = some b)
    ∧ (∀ l : List BlockData, (∀ x ∈ l, x.is_active = false) →
      List.find? (fun block => block.is_active) l = none)
    ∧ (∀ (run : String × List String → StratOutcome) (c : String × List String)
        (rest : List (String × List String)) (j : Json) (response : BlocksResponse),
      run c = StratOutcome.exitSuccess (some j) →
      parse_blocks_response j = some response →
      (∀ x ∈ response.blocks, x.is_active = false) →
      fetch_loop run (c :: rest) = (none, true)) := by
  refine ⟨find_first_active, find_no_active, ?_⟩
  intro run c rest j response h1 h2 h3
  simp [fetch_loop, h1, h2, find_no_active response.blocks h3]

/-- Witness for C5 at concrete data: an inactive block before two active
copies selects the first active one; an all-inactive list selects nothing;
a parsed all-inactive response gives `(none, true)`. -/
theorem C5_witness :
    List.find? (fun block => block.is_active)
        ([sample_inactive] ++ sample_block :: [sample_block]) = some sample_block
    ∧ List.find? (fun block => block.is_active) [sample_inactive] = none
    ∧ fetch_loop (fun _ => StratOutcome.exitSuccess (some sample_json_response))
        (("ccusage", ["blocks", "--json", "--active"]) :: []) = (none, true) :=
  ⟨C5_thm.1 [sample_inactive] sample_block [sample_block] (by decide) (by decide),
   C5_thm.2.1 [sample_inactive] (by decide),
   C5_thm.2.2 _ _ [] sample_json_response ⟨[sample_inactive]⟩ rfl (by decide)
     (by decide)⟩

/-- `rhe_scaled scale q` is within one half of `scale * q`: the formatted
digits are the scaled cost rounded to the nearest integer (ties broken to
even, as in Rust's fixed-precision formatting). -/
theorem rhe_scaled_dist (scale : ℤ) (q : ℚ) :
    |(scale : ℚ) * q - (rhe_scaled scale q : ℚ)| ≤ 1 / 2 := by
  have hdpos : (0 : ℤ) < (q.den : ℤ) := by
    exact_mod_cast Nat.pos_of_ne_zero q.den_nz
  have hq : (scale : ℚ) * q = ((q.num * scale : ℤ) : ℚ) / ((q.den : ℤ) : ℚ) := by
    calc (scale : ℚ) * q = (scale : ℚ) * ((q.num : ℚ) / (q.den : ℚ)) := by
          rw [Rat.num_div_den]
      _ = ((q.num * scale : ℤ) : ℚ) / ((q.den : ℤ) : ℚ) := by push_cast; ring
  set n : ℤ := q.num * scale with hn
  set d : ℤ := (q.den : ℤ) with hd
  have hdQ : (0 : ℚ) < (d : ℚ) := by exact_mod_cast hdpos
  have key : ((d : ℚ)) * ((n / d : ℤ) : ℚ) + ((n % d : ℤ) : ℚ) = (n : ℚ) := by
    exact_mod_cast congrArg (fun z : ℤ => (z : ℚ)) (Int.ediv_add_emod n d)
  have hr0 : (0 : ℤ) ≤ n % d := Int.emod_nonneg n (ne_of_gt hdpos)
  have hrd : n % d < d := Int.emod_lt_of_pos n hdpos
  have hr0Q : (0 : ℚ) ≤ ((n % d : ℤ) : ℚ) := by exact_mod_cast hr0
  have hrdQ : ((n % d : ℤ) : ℚ) < (d : ℚ) := by exact_mod_cast hrd
  have hfrac : (n : ℚ) / (d : ℚ) - ((n / d : ℤ) : ℚ) = ((n % d : ℤ) : ℚ) / (d : ℚ) := by
    field_simp
    linarith [key]
  rw [hq]
  simp only [rhe_scaled]
  rw [← hn, ← hd]
  split_ifs with h1 h2 h3
  · have h1Q : 2 * ((n % d : ℤ) : ℚ) < (d : ℚ) := by exact_mod_cast h1
    have hhalf : ((n % d : ℤ) : ℚ) / (d : ℚ) ≤ 1 / 2 := by
      rw [div_le_iff₀ hdQ]; linarith
    have hlow : (0 : ℚ) ≤ ((n % d : ℤ) : ℚ) / (d : ℚ) := div_nonneg hr0Q hdQ.le
    rw [abs_le]
    constructor <;> linarith [hfrac]
  · have h2Q : (d : ℚ) < 2 * ((n % d : ℤ) : ℚ) := by exact_mod_cast h2
    have hge : 1 / 2 ≤ ((n % d : ℤ) : ℚ) / (d : ℚ) := by
      rw [le_div_iff₀ hdQ]; linarith
    have hlt1 : ((n % d : ℤ) : ℚ) / (d : ℚ) < 1 := by
      rw [div_lt_one hdQ]; exact hrdQ
    have hcast : ((n / d + 1 : ℤ) : ℚ) = ((n / d : ℤ) : ℚ) + 1 := by push_cast; ring
    rw [hcast, abs_le]
    constructor <;> linarith [hfrac]
  · have hteq : 2 * (n % d) = d := by omega
    have hteqQ : 2 * ((n % d : ℤ) : ℚ) = (d : ℚ) := by exact_mod_cast hteq
    have hh : ((n % d : ℤ) : ℚ) / (d : ℚ) = 1 / 2 := by
      rw [div_eq_iff (ne_of_gt hdQ)]; linarith
    rw [abs_le]
    constructor <;> linarith [hfrac, hh]
  · have hteq : 2 * (n % d) = d := by omega
    have hteqQ : 2 * ((n % d : ℤ) : ℚ) = (d : ℚ) := by exact_mod_cast hteq
    have hh : ((n % d : ℤ) : ℚ) / (d : ℚ) = 1 / 2 := by
      rw [div_eq_iff (ne_of_gt hdQ)]; linarith
    have hcast : ((n / d + 1 : ℤ) : ℚ) = ((n / d : ℤ) : ℚ) + 1 := by push_cast; ring
    rw [hcast, abs_le]
    constructor <;> linarith [hfrac, hh]

/-- Claim C7: the Active branch's cost line is "Cost: " followed by the
`$`-prefixed two-decimal rendering of the interval's cost; after a refresh
the requested tray title is that same `$`-prefixed two-decimal rendering
when an active interval exists and the empty string when none does; and the
rendered digits are the cost scaled by 100 rounded to the nearest integer
(within one half). -/
theorem C7_thm :
    (∀ (fmt_local_time : String → Option String) (b : BlockData)
        (lu : Option Nat) (avail : Bool),
      MenuEntry.item "session_cost" ("Cost: $" ++ fmt_f64_2 b.cost_usd) true
        ∈ build_menu fmt_local_time ⟨some b, lu, avail⟩)
    ∧ (∀ (b : BlockData) (avail : Bool) (now : Nat) (cache : SessionData),
      (refresh_session_data (some b, avail) now cache).2 = "$" ++ fmt_f64_2 b.cost_usd)
    ∧ (∀ (avail : Bool) (now : Nat) (cache : SessionData),
      (refresh_session_data (none, avail) now cache).2 = "")
    ∧ (∀ q : ℚ, |(100 : ℚ) * q - (rhe_scaled 100 q : ℚ)| ≤ 1 / 2) := by
  refine ⟨?_, fun b avail now cache => rfl, fun avail now cache => rfl, ?_⟩
  · intro f b lu avail
    simp [build_menu]
  · intro q
    have h := rhe_scaled_dist 100 q
    have h100 : ((100 : ℤ) : ℚ) = (100 : ℚ) := by norm_num
    rwa [h100] at h

/-- `format_model_name` agrees everywhere with the spec-side description
(fixed lookup table, then keyword fallback in priority order, else the raw
name). -/
theorem fmn_eq (m : String) : format_model_name m = spec_format_model_name m := by
  by_cases h1 : m = "claude-opus-4-20250514"
  · subst h1; decide
  by_cases h2 : m = "claude-sonnet-4-20250514"
  · subst h2; decide
  by_cases h3 : m = "claude-3-5-sonnet-20241022"
  · subst h3; decide
  by_cases h4 : m = "claude-3-haiku-20240307"
  · subst h4; decide
  have b1 : (m == "claude-opus-4-20250514") = false := beq_eq_false_iff_ne.mpr h1
  have b2 : (m == "claude-sonnet-4-20250514") = false := beq_eq_false_iff_ne.mpr h2
  have b3 : (m == "claude-3-5-sonnet-20241022") = false := beq_eq_false_iff_ne.mpr h3
  have b4 : (m == "claude-3-haiku-20240307") = false := beq_eq_false_iff_ne.mpr h4
  simp [format_model_name, spec_format_model_name, spec_model_table, List.lookup,
    h1, h2, h3, h4, b1, b2, b3, b4]

/-- Claim C8: model-name normalization is exactly the spec's lookup table
with substring fallback in "opus" / "sonnet" / "haiku" priority order and
raw pass-through, and the two quoted examples normalize as stated. -/
theorem C8_thm :
    (∀ m : String, format_model_name m = spec_format_model_name m)
    ∧ format_model_name "claude-sonnet-4-20250514" = "Sonnet 4"
    ∧ format_model_name "my-custom-opus-model" = "Opus" :=
  ⟨fmn_eq, by decide, by decide⟩

/-- Claim C9: every completed refresh cycle sets `last_updated` to the
current instant (so it is never absent again, since the refresh body is the
cache's only writer), and the menu built from any post-refresh cache never
shows the Loading branch (its branch slot, index 3, is never the loading
item). -/
theorem C9_thm :
    (∀ (fetched : Option BlockData × Bool) (now : Nat) (cache : SessionData),
      (refresh_session_data fetched now cache).1.last_updated = some now)
    ∧ (∀ (fmt_local_time : String → Option String) (fetched : Option BlockData × Bool)
        (now : Nat) (cache : SessionData),
      (build_menu fmt_local_time (refresh_session_data fetched now cache).1)[3]?
        ≠ some (MenuEntry.item "loading" "Loading..." false)) := by
  refine ⟨fun fetched now cache => rfl, ?_⟩
  intro f fetched now cache
  rcases fetched with ⟨ab, avail⟩
  cases ab with
  | none => cases avail <;> simp [build_menu, refresh_session_data]
  | some b => simp [build_menu, refresh_session_data]

/-- Witness for C9 at a concrete post-refresh cache (an all-failed cycle at
instant 7): the branch slot of the rebuilt menu is not the loading item. -/
theorem C9_witness :
    (build_menu (fun _ => none)
        (refresh_session_data (none, false) 7 initial_session_cache).1)[3]?
      ≠ some (MenuEntry.item "loading" "Loading..." false) :=
  C9_thm.2 (fun _ => none) (none, false) 7 initial_session_cache

/-- A sequence containing one bad block record fails wholesale. -/
theorem parse_block_seq_none (l1 l2 : List Json) (j : Json)
    (h : parse_block_data j = none) : parse_block_seq (l1 ++ j :: l2) = none := by
  induction l1 with
  | nil => simp [parse_block_seq, h]
  | cons a t ih =>
    cases ha : parse_block_data a <;> simp [parse_block_seq, ha, ih]

/-- Claim C10: token counts deserialize as unsigned 64-bit integers — a
negative or non-integral number is rejected, any parsed count is below
`2 ^ 64` (and non-negative by construction, being a `Nat`), a bad count
fails its `tokenCounts` object, which fails its block record, which fails
the whole blocks array and hence the whole response, and such a strategy is
treated as a failure (the prober advances), so it can never populate the
cache. -/
theorem C10_thm :
    (∀ q : ℚ, ¬(q.den = 1 ∧ 0 ≤ q.num ∧ q.num < 2 ^ 64) →
      parse_u64 (Json.num q) = none)
    ∧ (∀ (j : Json) (n : Nat), parse_u64 j = some n → n < 2 ^ 64)
    ∧ (∀ (i o cc cr : Json), parse_u64 i = none →
      parse_token_counts (Json.obj [("inputTokens", i), ("outputTokens", o),
        ("cacheCreationInputTokens", cc), ("cacheReadInputTokens", cr)]) = none)
    ∧ (∀ (id st et : String) (ia : Bool) (tcj cuj msj : Json),
      parse_token_counts tcj = none →
      parse_block_data (Json.obj [("id", Json.str id), ("startTime", Json.str st),
        ("endTime", Json.str et), ("isActive", Json.boolean ia),
        ("tokenCounts", tcj), ("costUSD", cuj), ("models", msj)]) = none)
    ∧ (∀ (l1 l2 : List Json) (j : Json), parse_block_data j = none →
      parse_block_list (Json.arr (l1 ++ j :: l2)) = none)
    ∧ (∀ bs : Json, parse_block_list bs = none →
      parse_blocks_response (Json.obj [("blocks", bs)]) = none)
    ∧ (∀ (run : String × List String → StratOutcome) (c : String × List String)
        (rest : List (String × List String)) (j : Json),
      run c = StratOutcome.exitSuccess (some j) → parse_blocks_response j = none →
      fetch_loop run (c :: rest) = fetch_loop run rest) := by
  refine ⟨?_, ?_, ?_, ?_, ?_, ?_, ?_⟩
  · intro q h
    simp only [parse_u64]
    rw [if_neg h]
  · intro j n h
    cases j <;> simp [parse_u64] at h
    obtain ⟨⟨hden, hnum0, hnumlt⟩, hn⟩ := h
    have h64 : (2 : ℕ) ^ 64 = 18446744073709551616 := by norm_num
    rw [h64]
    omega
  · intro i o cc cr h
    simp [parse_token_counts, List.lookup, h]
  · intro id st et ia tcj cuj msj h
    simp [parse_block_data, parse_string, parse_boolean, List.lookup, h]
  · intro l1 l2 j h
    simpa [parse_block_list] using parse_block_seq_none l1 l2 j h
  · intro bs h
    simp [parse_blocks_response, List.lookup, h]
  · intro run c rest j h1 h2
    simp [fetch_loop, h1, h2]

/-- Witness for C10 at concrete bad numbers: a negative count and a
fractional count are rejected, a record carrying the negative count fails
the whole blocks array, and a response built from it makes the strategy a
failure (the loop advances past it). -/
theorem C10_witness :
    parse_u64 (Json.num (mkRat (-5) 1)) = none
    ∧ parse_u64 (Json.num (mkRat 3 2)) = none
    ∧ parse_block_list (Json.arr ([] ++ bad_block_json :: [])) = none
    ∧ fetch_loop (fun _ => StratOutcome.exitSuccess (some bad_response_json))
        (("ccusage", ["blocks", "--json", "--active"]) :: [])
      = fetch_loop (fun _ => StratOutcome.exitSuccess (some bad_response_json)) [] :=
  ⟨C10_thm.1 _ (by decide), C10_thm.1 _ (by decide),
   C10_thm.2.2.2.2.1 [] [] bad_block_json (by decide),
   C10_thm.2.2.2.2.2.2 _ _ [] bad_response_json rfl (by decide)⟩

end CCUsage
